import Mathlib

/-!
Shallow embedding of `verify_setup.py` (SetupVerifier): the check runner
(`check_item`, `warn_item`), the individual checks, the summary computation
and the exit-code mapping of `main`, together with theorems about them.

External effects (the Python interpreter version, environment variables,
package resolution via importlib, and the outcome of each external check
body) are modelled as explicit inputs; a check body that may raise a Python
`Exception` is modelled by the `CheckOutcome` type, printing is modelled
by returning the list of printed lines.
-/

namespace VerifySetup

/-- The mutable state of a `SetupVerifier` instance: `self.errors`,
`self.warnings`, `self.success_count`, `self.total_checks`. -/
structure SetupVerifier where
  errors : List String
  warnings : List String
  success_count : Nat
  total_checks : Nat
deriving DecidableEq

/-- `SetupVerifier.__init__`: empty lists and zero counters. -/
def SetupVerifier.init : SetupVerifier :=
  { errors := [], warnings := [], success_count := 0, total_checks := 0 }

/-- Outcome of invoking a zero-argument Python check function: it either
returns a boolean, or raises an `Exception` whose `str` is `msg`. -/
inductive CheckOutcome where
  | ok (result : Bool)
  | raise (msg : String)
deriving DecidableEq

/-- `SetupVerifier.check_item(description, check_function)`: increments
`total_checks`, invokes the check inside a `try/except Exception` boundary,
and either counts a success, or appends to `errors` (the bare description on
a falsy return, `f"{description} - {e}"` on an exception).  Returns the new
state, the printed lines, and the boolean result. -/
def check_item (s : SetupVerifier) (description : String)
    (check_function : CheckOutcome) : SetupVerifier × List String × Bool :=
  let s1 := { s with total_checks := s.total_checks + 1 }
  match check_function with
  | .ok true =>
      ({ s1 with success_count := s1.success_count + 1 },
        ["✅ " ++ description], true)
  | .ok false =>
      ({ s1 with errors := s1.errors ++ [description] },
        ["❌ " ++ description], false)
  | .raise e =>
      ({ s1 with errors := s1.errors ++ [description ++ " - " ++ e] },
        ["❌ " ++ description ++ " - Error: " ++ e], false)

/-- `SetupVerifier.warn_item(description)`: prints the warning line and
appends the description to `self.warnings`. -/
def warn_item (s : SetupVerifier) (description : String) :
    SetupVerifier × List String :=
  ({ s with warnings := s.warnings ++ [description] },
    ["⚠️  " ++ description])

/-- `SetupVerifier.check_python_version`: tests
`version.major >= 3 and version.minor >= 10` on `sys.version_info`;
returns the printed line and the boolean. -/
def check_python_version (major minor micro : Nat) : List String × Bool :=
  let vtext := toString major ++ "." ++ toString minor ++ "." ++ toString micro
  if 3 ≤ major ∧ 10 ≤ minor then
    (["✅ Python version: " ++ vtext], true)
  else
    (["❌ Python version: " ++ vtext ++ " (requires 3.10+)"], false)

/-- The environment facts inspected by `check_virtual_environment`:
the values of `VIRTUAL_ENV` and `CONDA_DEFAULT_ENV` in `os.environ`,
`hasattr(sys, 'real_prefix')`, and whether `sys.base_prefix != sys.prefix`. -/
structure PyEnv where
  virtualEnv : Option String
  condaDefaultEnv : Option String
  realPfx : Bool
  basePfxDiffers : Bool
deriving DecidableEq

/-- The `venv_indicators` list built by `check_virtual_environment`. -/
def venv_indicators (env : PyEnv) : List Bool :=
  [env.virtualEnv.isSome, env.condaDefaultEnv.isSome,
    env.realPfx, env.basePfxDiffers]

/-- The warning text used when no virtual-environment indicator is set. -/
def venv_warning : String :=
  "Not running in virtual environment (recommended but not required)"

/-- `SetupVerifier.check_virtual_environment`: if `any(venv_indicators)` it
returns `True` with no state change; otherwise it calls `warn_item` and
still returns `True` ("Don't fail the check, just warn"). -/
def check_virtual_environment (s : SetupVerifier) (env : PyEnv) :
    SetupVerifier × Bool :=
  if (venv_indicators env).any id then (s, true)
  else ((warn_item s venv_warning).1, true)

/-- `SetupVerifier.check_package_import(package_name)`: importlib is
modelled by `resolve`, which yields the imported module's version string
when the import succeeds and `none` on `ImportError`.  On success the
method returns `f"{package_name} v{version}"`, else `None`. -/
def check_package_import (resolve : String → Option String)
    (package_name : String) : Option String :=
  (resolve package_name).map (fun version => package_name ++ " v" ++ version)

/-- The fixed `essential_packages` list of `check_essential_packages`. -/
def essential_packages : List String :=
  ["numpy", "pandas", "matplotlib", "requests", "jupyter"]

/-- The loop of `check_essential_packages`: partitions the package list,
in order, into `installed_packages` (formatted name-and-version strings)
and `missing_packages` (bare names). -/
def packages_scan (resolve : String → Option String) :
    List String → List String × List String
  | [] => ([], [])
  | package :: rest =>
      match check_package_import resolve package with
      | some r =>
          let acc := packages_scan resolve rest
          (r :: acc.1, acc.2)
      | none =>
          let acc := packages_scan resolve rest
          (acc.1, package :: acc.2)

/-- The body of `check_essential_packages` applied to a package list: scans
the list, prints one `✅` line per installed package then one `❌ ... - Not
installed` line per missing package, and returns
`len(missing_packages) == 0`. -/
def check_essential_packages_run (resolve : String → Option String)
    (pkgs : List String) : List String × Bool :=
  let scan := packages_scan resolve pkgs
  (scan.1.map (fun pkg => "✅ " ++ pkg)
      ++ scan.2.map (fun pkg => "❌ " ++ pkg ++ " - Not installed"),
    scan.2.length == 0)

/-- `SetupVerifier.check_essential_packages`: the loop over the fixed
`essential_packages` list. -/
def check_essential_packages (resolve : String → Option String) :
    List String × Bool :=
  check_essential_packages_run resolve essential_packages

/-- The `success_rate` computation of `print_summary`:
`(self.success_count / self.total_checks) * 100` with Python true division,
which raises `ZeroDivisionError` (modelled as `none`) when
`total_checks == 0`; there is no guard in the source. -/
def success_rate (s : SetupVerifier) : Option ℚ :=
  if s.total_checks = 0 then none
  else some (((s.success_count : ℚ) / (s.total_checks : ℚ)) * 100)

/-- The three verdict tiers of the summary block. -/
inductive Verdict where
  | top
  | middle
  | bottom
deriving DecidableEq

/-- The verdict tiering at the end of `print_summary`:
`success_rate >= 90` prints the EXCELLENT message, `elif success_rate >= 75`
the GOOD message, `else` the ATTENTION message. -/
def verdict_tier (rate : ℚ) : Verdict :=
  if rate ≥ 90 then .top
  else if rate ≥ 75 then .middle
  else .bottom

/-- Running a sequence of checks through `check_item`, threading the state:
each element is a description paired with the outcome of its check body. -/
def run_sequence (s : SetupVerifier)
    (checks : List (String × CheckOutcome)) : SetupVerifier :=
  checks.foldl (fun st c => (check_item st c.1 c.2).1) s

/-- The external inputs of one full run: the interpreter version seen by
`check_python_version`, the environment seen by `check_virtual_environment`,
the importlib behaviour seen by `check_essential_packages`, and the outcome
of each remaining external check body invoked through `check_item`. -/
structure RunInputs where
  pyMajor : Nat
  pyMinor : Nat
  pyMicro : Nat
  env : PyEnv
  filePermissions : CheckOutcome
  resolve : String → Option String
  dataManipulation : CheckOutcome
  visualization : CheckOutcome
  network : CheckOutcome
  simulation : CheckOutcome

/-- The six `check_item` invocations of `run_all_checks`, in source order,
with their descriptions; the essential-packages outcome is the aggregate
boolean computed by `check_essential_packages` (whose embedded body always
returns rather than raising). -/
def run_checklist (inp : RunInputs) : List (String × CheckOutcome) :=
  [("File write permissions", inp.filePermissions),
    ("Essential packages installed",
      .ok (check_essential_packages inp.resolve).2),
    ("Data manipulation (NumPy/Pandas)", inp.dataManipulation),
    ("Visualization (Matplotlib)", inp.visualization),
    ("Network connectivity (PyPI)", inp.network),
    ("AI Security simulation", inp.simulation)]

/-- The state after the check sequence of `run_all_checks`:
`check_python_version` is called directly (its return value is discarded
and it touches no state), then `check_virtual_environment` directly, then
the six `check_item` calls. -/
def run_all_state (inp : RunInputs) : SetupVerifier :=
  let _pyOk := (check_python_version inp.pyMajor inp.pyMinor inp.pyMicro).2
  let s1 := (check_virtual_environment SetupVerifier.init inp.env).1
  run_sequence s1 (run_checklist inp)

/-- `SetupVerifier.run_all_checks` on a fresh verifier: runs the checks,
then `print_summary` (which raises, modelled `none`, exactly when its
`success_rate` computation does), and returns `len(self.errors) == 0`. -/
def run_all_checks (inp : RunInputs) : Option (SetupVerifier × Bool) :=
  let s := run_all_state inp
  match success_rate s with
  | none => none
  | some _ => some (s, s.errors.length == 0)

/-- How a run of `main` ends: normal completion, a `KeyboardInterrupt`, or
an unexpected top-level `Exception`. -/
inductive MainEvent where
  | normal
  | interrupted
  | unexpected (msg : String)

/-- The exit code of `main`: `KeyboardInterrupt` and unexpected exceptions
exit `1`; an exception escaping `run_all_checks` (e.g. from
`print_summary`) is caught by the top-level handler and exits `1`;
otherwise `sys.exit(0 if success else 1)`. -/
def exit_code (inp : RunInputs) (ev : MainEvent) : Nat :=
  match ev with
  | .interrupted => 1
  | .unexpected _ => 1
  | .normal =>
      match run_all_checks inp with
      | none => 1
      | some (_, success) => if success then 0 else 1

/-- A concrete run: Python 3.9 (below the minimum), no virtual-environment
indicator, every package resolvable and every external check succeeding. -/
def all_pass_oldpython : RunInputs :=
  { pyMajor := 3, pyMinor := 9, pyMicro := 0,
    env := { virtualEnv := none, condaDefaultEnv := none,
             realPfx := false, basePfxDiffers := false },
    filePermissions := .ok true,
    resolve := fun _ => some "1.0",
    dataManipulation := .ok true,
    visualization := .ok true,
    network := .ok true,
    simulation := .ok true }

/-- The bookkeeping invariant of the runner state. -/
def state_invariant (s : SetupVerifier) : Prop :=
  s.total_checks = s.success_count + s.errors.length

theorem check_item_total_checks (s : SetupVerifier) (d : String)
    (o : CheckOutcome) :
    ((check_item s d o).1).total_checks = s.total_checks + 1 := by
  cases o with
  | ok b => cases b <;> rfl
  | raise m => rfl

theorem check_item_counts (s : SetupVerifier) (d : String) (o : CheckOutcome) :
    ((check_item s d o).1).success_count + ((check_item s d o).1).errors.length
      = s.success_count + s.errors.length + 1 := by
  cases o with
  | ok b => cases b <;> simp [check_item] <;> omega
  | raise m => simp [check_item]; omega

theorem check_item_warnings (s : SetupVerifier) (d : String) (o : CheckOutcome) :
    ((check_item s d o).1).warnings = s.warnings := by
  cases o with
  | ok b => cases b <;> rfl
  | raise m => rfl

theorem check_item_set_warnings (s : SetupVerifier) (w : List String)
    (d : String) (o : CheckOutcome) :
    (check_item { s with warnings := w } d o).1
      = { (check_item s d o).1 with warnings := w } := by
  cases o with
  | ok b => cases b <;> rfl
  | raise m => rfl

theorem run_sequence_nil (s : SetupVerifier) : run_sequence s [] = s := rfl

theorem run_sequence_cons (s : SetupVerifier) (c : String × CheckOutcome)
    (rest : List (String × CheckOutcome)) :
    run_sequence s (c :: rest) = run_sequence (check_item s c.1 c.2).1 rest :=
  rfl

theorem run_sequence_append (s : SetupVerifier)
    (l1 l2 : List (String × CheckOutcome)) :
    run_sequence s (l1 ++ l2) = run_sequence (run_sequence s l1) l2 := by
  simp [run_sequence, List.foldl_append]

theorem run_sequence_total_checks (checks : List (String × CheckOutcome)) :
    ∀ s : SetupVerifier,
      (run_sequence s checks).total_checks = s.total_checks + checks.length := by
  induction checks with
  | nil => intro s; simp [run_sequence]
  | cons c rest ih =>
      intro s
      rw [run_sequence_cons, ih, check_item_total_checks]
      simp; omega

theorem run_sequence_counts (checks : List (String × CheckOutcome)) :
    ∀ s : SetupVerifier,
      (run_sequence s checks).success_count
          + (run_sequence s checks).errors.length
        = s.success_count + s.errors.length + checks.length := by
  induction checks with
  | nil => intro s; simp [run_sequence]
  | cons c rest ih =>
      intro s
      rw [run_sequence_cons, ih, check_item_counts]
      simp; omega

theorem run_sequence_set_warnings (checks : List (String × CheckOutcome)) :
    ∀ (s : SetupVerifier) (w : List String),
      run_sequence { s with warnings := w } checks
        = { run_sequence s checks with warnings := w } := by
  induction checks with
  | nil => intro s w; rfl
  | cons c rest ih =>
      intro s w
      rw [run_sequence_cons, check_item_set_warnings, ih]
      rfl

/-- C1: running any sequence of N checks through `check_item` from the
initial state yields `total_checks = N` and
`success_count + len(errors) = N`; the invariant
`total_checks = success_count + len(errors)` holds initially and is
preserved by every `check_item` and every `warn_item` call. -/
theorem checks_accounting_C1 :
    (∀ checks : List (String × CheckOutcome),
        (run_sequence SetupVerifier.init checks).total_checks = checks.length
      ∧ (run_sequence SetupVerifier.init checks).success_count
            + (run_sequence SetupVerifier.init checks).errors.length
          = checks.length)
  ∧ state_invariant SetupVerifier.init
  ∧ (∀ (s : SetupVerifier) (d : String) (o : CheckOutcome),
        state_invariant s → state_invariant (check_item s d o).1)
  ∧ (∀ (s : SetupVerifier) (d : String),
        state_invariant s → state_invariant (warn_item s d).1) := by
  refine ⟨?_, rfl, ?_, ?_⟩
  · intro checks
    constructor
    · rw [run_sequence_total_checks]; simp [SetupVerifier.init]
    · rw [run_sequence_counts]; simp [SetupVerifier.init]
  · intro s d o h
    unfold state_invariant at h ⊢
    rw [check_item_total_checks, check_item_counts, h]
  · intro s d h
    exact h

/-- Witness for C1: the invariant-preservation parts applied at a concrete
state, a concrete check and a concrete warning. -/
theorem checks_accounting_C1_witness :
    state_invariant
        (check_item SetupVerifier.init "File write permissions"
          (CheckOutcome.ok true)).1
  ∧ state_invariant (warn_item SetupVerifier.init venv_warning).1 :=
  ⟨checks_accounting_C1.2.2.1 SetupVerifier.init "File write permissions"
      (CheckOutcome.ok true) rfl,
    checks_accounting_C1.2.2.2 SetupVerifier.init venv_warning rfl⟩

/-- C2: a check body that raises never propagates out of `check_item`: the
error entry `description ++ " - " ++ msg` is appended, the failure line
carrying the error text is printed, `false` is returned, and the run
continues through the later checks (each of which still increments
`total_checks`). -/
theorem check_item_raise_C2 (s : SetupVerifier) (d msg : String)
    (pre post : List (String × CheckOutcome)) :
    (check_item s d (CheckOutcome.raise msg)).1.errors
        = s.errors ++ [d ++ " - " ++ msg]
  ∧ (check_item s d (CheckOutcome.raise msg)).2.1
        = ["❌ " ++ d ++ " - Error: " ++ msg]
  ∧ (check_item s d (CheckOutcome.raise msg)).2.2 = false
  ∧ run_sequence s (pre ++ (d, CheckOutcome.raise msg) :: post)
        = run_sequence
            (check_item (run_sequence s pre) d (CheckOutcome.raise msg)).1 post
  ∧ (run_sequence s (pre ++ (d, CheckOutcome.raise msg) :: post)).total_checks
        = s.total_checks + pre.length + 1 + post.length := by
  refine ⟨rfl, rfl, rfl, ?_, ?_⟩
  · rw [run_sequence_append, run_sequence_cons]
  · rw [run_sequence_total_checks]
    simp; omega

/-- C10: `warn_item` appends exactly one entry to the warnings list and
changes neither `success_count`, nor `total_checks`, nor the errors list. -/
theorem warn_item_frame_C10 (s : SetupVerifier) (d : String) :
    (warn_item s d).1.warnings = s.warnings ++ [d]
  ∧ (warn_item s d).1.warnings.length = s.warnings.length + 1
  ∧ (warn_item s d).1.success_count = s.success_count
  ∧ (warn_item s d).1.total_checks = s.total_checks
  ∧ (warn_item s d).1.errors = s.errors := by
  refine ⟨rfl, ?_, rfl, rfl, rfl⟩
  simp [warn_item]

theorem check_virtual_environment_total (s : SetupVerifier) (env : PyEnv) :
    ((check_virtual_environment s env).1).total_checks = s.total_checks := by
  unfold check_virtual_environment
  split <;> rfl

theorem run_all_state_total_checks (inp : RunInputs) :
    (run_all_state inp).total_checks = 6 := by
  unfold run_all_state
  rw [run_sequence_total_checks, check_virtual_environment_total]
  rfl

/-- C3 counterexample: in the state with `total_checks = 0` the
`success_rate` computation of `print_summary` raises a division error
(modelled `none`); it is not defined as 0%. -/
theorem success_rate_zero_C3_counterexample :
    success_rate
        { errors := [], warnings := [], success_count := 0, total_checks := 0 }
      = none
  ∧ success_rate
        { errors := [], warnings := [], success_count := 0, total_checks := 0 }
      ≠ some 0 :=
  ⟨rfl, by simp [success_rate]⟩

/-- C3 (amended): the summary computation
`success_rate = successes / total_checks * 100` is defined whenever
`total_checks > 0`; at `total_checks == 0` it raises a division error
rather than yielding 0%.  In every state actually reaching the summary,
`total_checks = 6 > 0`, so `print_summary` there never fails with a
division-by-zero error and `run_all_checks` always returns. -/
theorem success_rate_defined_C3 :
    (∀ s : SetupVerifier, 0 < s.total_checks →
        success_rate s
          = some (((s.success_count : ℚ) / (s.total_checks : ℚ)) * 100))
  ∧ (∀ inp : RunInputs, (run_all_checks inp).isSome = true) := by
  constructor
  · intro s h
    unfold success_rate
    rw [if_neg (by omega)]
  · intro inp
    have h6 := run_all_state_total_checks inp
    simp [run_all_checks, success_rate, h6]

/-- Witness for C3: the defined-rate part applied at a concrete state with
three successes out of four checks. -/
theorem success_rate_defined_C3_witness :
    success_rate ⟨[], [], 3, 4⟩
      = some ((((3 : Nat) : ℚ) / ((4 : Nat) : ℚ)) * 100) :=
  success_rate_defined_C3.1 ⟨[], [], 3, 4⟩ (by norm_num)

/-- C4: `check_python_version` tests `major >= 3 and minor >= 10`, so it
returns `false` for version 4.0.0 even though major 4 exceeds the 3.10
minimum required by its own docstring; the actual returned condition is
`major >= 3 AND minor >= 10`, not `major > 3 or (major = 3 and
minor >= 10)`. -/
theorem check_python_version_C4 :
    (check_python_version 4 0 0).2 = false
  ∧ (3 < 4 ∨ (4 = 3 ∧ 10 ≤ 0))
  ∧ (∀ major minor micro : Nat,
        (check_python_version major minor micro).2 = true
          ↔ (3 ≤ major ∧ 10 ≤ minor)) := by
  refine ⟨rfl, Or.inl (by norm_num), ?_⟩
  intro major minor micro
  simp only [check_python_version]
  split
  next h => simpa using h
  next h => simpa using h

/-- C6: the verdict tiering of `print_summary` is a pure function of the
success rate with fixed thresholds: rate ≥ 90 is the top tier, 75 ≤ rate
< 90 the middle tier, and rate < 75 the bottom tier. -/
theorem verdict_tier_thresholds_C6 (r : ℚ) :
    (90 ≤ r → verdict_tier r = Verdict.top)
  ∧ (75 ≤ r → r < 90 → verdict_tier r = Verdict.middle)
  ∧ (r < 75 → verdict_tier r = Verdict.bottom) := by
  unfold verdict_tier
  refine ⟨fun h => ?_, fun h1 h2 => ?_, fun h => ?_⟩
  · rw [if_pos h]
  · rw [if_neg (by exact not_le.mpr h2), if_pos h1]
  · rw [if_neg (by linarith), if_neg (by exact not_le.mpr h)]

/-- Witness for C6: rate 95 is the top tier, 80 the middle tier, 50 the
bottom tier. -/
theorem verdict_tier_thresholds_C6_witness :
    verdict_tier 95 = Verdict.top
  ∧ verdict_tier 80 = Verdict.middle
  ∧ verdict_tier 50 = Verdict.bottom :=
  ⟨(verdict_tier_thresholds_C6 95).1 (by norm_num),
    (verdict_tier_thresholds_C6 80).2.1 (by norm_num) (by norm_num),
    (verdict_tier_thresholds_C6 50).2.2 (by norm_num)⟩

/-- C9: `check_virtual_environment` always returns `true`: with some
indicator set it leaves the state unchanged, and with no indicator set it
records exactly the advisory warning as a side effect and still returns
`true`. -/
theorem check_virtual_environment_C9 (s : SetupVerifier) (env : PyEnv) :
    (check_virtual_environment s env).2 = true
  ∧ ((venv_indicators env).any id = true →
        (check_virtual_environment s env).1 = s)
  ∧ ((venv_indicators env).any id = false →
        (check_virtual_environment s env).1
          = { s with warnings := s.warnings ++ [venv_warning] }) := by
  unfold check_virtual_environment
  refine ⟨?_, fun h => ?_, fun h => ?_⟩
  · split <;> rfl
  · rw [if_pos h]
  · rw [if_neg (by simp [h])]
    rfl

/-- Witness for C9: a concrete environment with `VIRTUAL_ENV` set leaves
the state unchanged; a concrete empty environment appends exactly the
advisory warning. -/
theorem check_virtual_environment_C9_witness :
    (check_virtual_environment SetupVerifier.init
        { virtualEnv := some "/venvs/course", condaDefaultEnv := none,
          realPfx := false, basePfxDiffers := false }).1 = SetupVerifier.init
  ∧ (check_virtual_environment SetupVerifier.init
        { virtualEnv := none, condaDefaultEnv := none,
          realPfx := false, basePfxDiffers := false }).1
      = { SetupVerifier.init with
            warnings := SetupVerifier.init.warnings ++ [venv_warning] } :=
  ⟨(check_virtual_environment_C9 SetupVerifier.init
      { virtualEnv := some "/venvs/course", condaDefaultEnv := none,
        realPfx := false, basePfxDiffers := false }).2.1 rfl,
    (check_virtual_environment_C9 SetupVerifier.init
      { virtualEnv := none, condaDefaultEnv := none,
        realPfx := false, basePfxDiffers := false }).2.2 rfl⟩

/-- C5: `run_all_checks` completes (the summary does not raise), returns
exactly `len(errors) == 0`, and `main` maps this to exit code 0 precisely
when the error list is empty; a `KeyboardInterrupt` or an unexpected
top-level exception exits 1. -/
theorem run_success_exit_C5 (inp : RunInputs) :
    ∃ (s : SetupVerifier) (b : Bool),
      run_all_checks inp = some (s, b)
    ∧ (b = true ↔ s.errors = [])
    ∧ (exit_code inp MainEvent.normal = 0 ↔ s.errors = [])
    ∧ exit_code inp MainEvent.interrupted = 1
    ∧ (∀ msg : String, exit_code inp (MainEvent.unexpected msg) = 1) := by
  have h6 := run_all_state_total_checks inp
  have hsome : run_all_checks inp
      = some (run_all_state inp, (run_all_state inp).errors.length == 0) := by
    simp [run_all_checks, success_rate, h6]
  refine ⟨run_all_state inp, (run_all_state inp).errors.length == 0,
    hsome, ?_, ?_, rfl, fun msg => rfl⟩
  · simp [List.length_eq_zero]
  · unfold exit_code
    rw [hsome]
    by_cases h : (run_all_state inp).errors = []
    · simp [h]
    · simp [List.length_eq_zero, h]

theorem check_virtual_environment_init (e : PyEnv) :
    (check_virtual_environment SetupVerifier.init e).1
      = { SetupVerifier.init with
            warnings :=
              (check_virtual_environment SetupVerifier.init e).1.warnings } := by
  unfold check_virtual_environment
  split <;> rfl

theorem run_all_state_eq (inp : RunInputs) :
    run_all_state inp
      = { run_sequence SetupVerifier.init (run_checklist inp) with
            warnings :=
              (check_virtual_environment SetupVerifier.init
                inp.env).1.warnings } := by
  have h : run_all_state inp
      = run_sequence (check_virtual_environment SetupVerifier.init inp.env).1
          (run_checklist inp) := rfl
  rw [h, check_virtual_environment_init, run_sequence_set_warnings]

/-- C7: the interpreter-version check and the isolated-environment check
are invoked directly in `run_all_checks`, not through `check_item`, so the
interpreter version and the environment never influence `errors`,
`success_count` or `total_checks`; concretely, with Python 3.9 (version
check returns false) and every tracked check passing, the error list stays
empty and the process exits with code 0. -/
theorem version_env_frame_C7 (inp : RunInputs) (a b c : Nat) (e : PyEnv) :
    (run_all_state
        { inp with pyMajor := a, pyMinor := b, pyMicro := c, env := e }).errors
      = (run_all_state inp).errors
  ∧ (run_all_state
        { inp with pyMajor := a, pyMinor := b, pyMicro := c, env := e }).success_count
      = (run_all_state inp).success_count
  ∧ (run_all_state
        { inp with pyMajor := a, pyMinor := b, pyMicro := c, env := e }).total_checks
      = (run_all_state inp).total_checks
  ∧ (check_python_version 3 9 0).2 = false
  ∧ (run_all_state all_pass_oldpython).errors = []
  ∧ exit_code all_pass_oldpython MainEvent.normal = 0 := by
  have h1 := run_all_state_eq
    { inp with pyMajor := a, pyMinor := b, pyMicro := c, env := e }
  have h2 := run_all_state_eq inp
  refine ⟨?_, ?_, ?_, rfl, ?_, ?_⟩
  · rw [h1, h2]; rfl
  · rw [h1, h2]; rfl
  · rw [h1, h2]; rfl
  · rfl
  · rfl

theorem packages_scan_installed_mem (resolve : String → Option String)
    (pkgs : List String) (p v : String) (hp : p ∈ pkgs)
    (hv : resolve p = some v) :
    (p ++ " v" ++ v) ∈ (packages_scan resolve pkgs).1 := by
  induction pkgs with
  | nil => cases hp
  | cons q rest ih =>
      cases hp with
      | head => simp [packages_scan, check_package_import, hv]
      | tail _ hmem =>
          cases hq : check_package_import resolve q with
          | some r => simp [packages_scan, hq]; exact Or.inr (ih hmem)
          | none => simp [packages_scan, hq]; exact ih hmem

theorem packages_scan_missing_mem (resolve : String → Option String)
    (pkgs : List String) (p : String) (hp : p ∈ pkgs)
    (hv : resolve p = none) :
    p ∈ (packages_scan resolve pkgs).2 := by
  induction pkgs with
  | nil => cases hp
  | cons q rest ih =>
      cases hp with
      | head => simp [packages_scan, check_package_import, hv]
      | tail _ hmem =>
          cases hq : check_package_import resolve q with
          | some r => simp [packages_scan, hq]; exact ih hmem
          | none => simp [packages_scan, hq]; exact Or.inr (ih hmem)

theorem packages_scan_missing_nil_iff (resolve : String → Option String)
    (pkgs : List String) :
    (packages_scan resolve pkgs).2 = []
      ↔ ∀ p ∈ pkgs, (resolve p).isSome = true := by
  induction pkgs with
  | nil => simp [packages_scan]
  | cons q rest ih =>
      cases hq : resolve q with
      | some v => simp [packages_scan, check_package_import, hq, ih]
      | none => simp [packages_scan, check_package_import, hq]

theorem packages_scan_length (resolve : String → Option String)
    (pkgs : List String) :
    (packages_scan resolve pkgs).1.length + (packages_scan resolve pkgs).2.length
      = pkgs.length := by
  induction pkgs with
  | nil => rfl
  | cons q rest ih =>
      cases hq : check_package_import resolve q with
      | some r => simp [packages_scan, hq]; omega
      | none => simp [packages_scan, hq]; omega

/-- C8: `check_essential_packages` returns `true` exactly when every name
of the fixed required list resolves, and prints one status line per name
(resolved names as `✅ name vVersion`, unresolved ones as
`❌ name - Not installed`) before returning the aggregate boolean; on the
list `["a", "b", "c"]` with only `"a"` resolvable it prints a status line
for each of a, b, c and returns `false`. -/
theorem check_essential_packages_C8 (resolve : String → Option String) :
    ((check_essential_packages resolve).2 = true
        ↔ ∀ p ∈ essential_packages, (resolve p).isSome = true)
  ∧ (check_essential_packages resolve).1.length = essential_packages.length
  ∧ (∀ p v : String, p ∈ essential_packages → resolve p = some v →
        ("✅ " ++ (p ++ " v" ++ v)) ∈ (check_essential_packages resolve).1)
  ∧ (∀ p : String, p ∈ essential_packages → resolve p = none →
        ("❌ " ++ p ++ " - Not installed") ∈ (check_essential_packages resolve).1)
  ∧ check_essential_packages_run
        (fun p => if p = "a" then some "1.0" else none) ["a", "b", "c"]
      = (["✅ a v1.0", "❌ b - Not installed", "❌ c - Not installed"],
          false) := by
  refine ⟨?_, ?_, ?_, ?_, ?_⟩
  · unfold check_essential_packages check_essential_packages_run
    rw [← packages_scan_missing_nil_iff resolve essential_packages]
    simp [List.length_eq_zero]
  · unfold check_essential_packages check_essential_packages_run
    simp [packages_scan_length]
  · intro p v hp hv
    unfold check_essential_packages check_essential_packages_run
    simp only [List.mem_append, List.mem_map]
    exact Or.inl ⟨p ++ " v" ++ v,
      packages_scan_installed_mem resolve essential_packages p v hp hv, rfl⟩
  · intro p hp hv
    unfold check_essential_packages check_essential_packages_run
    simp only [List.mem_append, List.mem_map]
    exact Or.inr ⟨p,
      packages_scan_missing_mem resolve essential_packages p hp hv, rfl⟩
  · rfl

/-- Witness for C8: with only numpy resolvable among the required
packages, the printed lines include the numpy success line and the pandas
missing line. -/
theorem check_essential_packages_C8_witness :
    ("✅ " ++ ("numpy" ++ " v" ++ "1.26"))
        ∈ (check_essential_packages
            (fun p => if p = "numpy" then some "1.26" else none)).1
  ∧ ("❌ " ++ "pandas" ++ " - Not installed")
        ∈ (check_essential_packages
            (fun p => if p = "numpy" then some "1.26" else none)).1 :=
  ⟨(check_essential_packages_C8
        (fun p => if p = "numpy" then some "1.26" else none)).2.2.1
      "numpy" "1.26" (by simp [essential_packages]) (by simp),
    (check_essential_packages_C8
        (fun p => if p = "numpy" then some "1.26" else none)).2.2.2.1
      "pandas" (by simp [essential_packages]) (by simp)⟩

end VerifySetup
